import Mathlib

/-!
Shallow embedding of `pytest_mh/_private/multihost.py`.

The configuration documents handled by the code are already-parsed Python
dictionaries whose values can be of any type; we model Python values with the
inductive `PyVal`, Python truthiness with `PyVal.truthy`, and the exceptions
raised by the code with `PyError`.  External collaborators (the SSH client,
the local filesystem, base64 decoding) are modelled as parameters or as
recorded trace events: the embedded functions return, next to their result,
a trace of the externally visible calls they made.
-/

set_option autoImplicit false

/-- Python runtime values as they occur in multihost configuration
dictionaries: `None`, booleans, integers, strings, lists and string-keyed
dictionaries. -/
inductive PyVal where
  | vNone
  | vBool (b : Bool)
  | vInt (n : Int)
  | vStr (s : String)
  | vList (xs : List PyVal)
  | vDict (entries : List (String × PyVal))

/-- Python exceptions raised by the embedded code. -/
inductive PyError where
  | valueError (msg : String)
  | typeError (msg : String)
  | attributeError (msg : String)
  | keyError (key : String)
  | notImplementedError (msg : String)
deriving DecidableEq

/-- Python dictionaries with string keys, as association lists. -/
abbrev PyDict := List (String × PyVal)

/-- First-match association-list lookup; models Python `d[k]` / `k in d` on a
dictionary with unique keys. -/
def assocLookup {α : Type _} : List (String × α) → String → Option α
  | [], _ => none
  | (k, v) :: rest, key => if k = key then some v else assocLookup rest key

/-- Models Python `d.get(k, dflt)`. -/
def dictGetD (d : PyDict) (k : String) (dflt : PyVal) : PyVal :=
  (assocLookup d k).getD dflt

/-- Python truthiness of a value (`bool(v)`). -/
def PyVal.truthy : PyVal → Bool
  | .vNone => false
  | .vBool b => b
  | .vInt n => n != 0
  | .vStr s => !s.isEmpty
  | .vList xs => !xs.isEmpty
  | .vDict es => !es.isEmpty

mutual
/-- Python `repr` of a value (string quoting is modelled without escape
handling; it only matters that container renderings contain brackets and can
never collide with the bare OS names `"linux"` / `"windows"`). -/
def pyRepr : PyVal → String
  | .vNone => "None"
  | .vBool true => "True"
  | .vBool false => "False"
  | .vInt n => toString n
  | .vStr s => "\x27" ++ s ++ "\x27"
  | .vList xs => "[" ++ pyReprItems xs ++ "]"
  | .vDict es => "\x7b" ++ pyReprEntries es ++ "\x7d"

/-- Comma-separated `repr` of list items. -/
def pyReprItems : List PyVal → String
  | [] => ""
  | [x] => pyRepr x
  | x :: xs => pyRepr x ++ ", " ++ pyReprItems xs

/-- Comma-separated `repr` of dictionary entries. -/
def pyReprEntries : List (String × PyVal) → String
  | [] => ""
  | [(k, v)] => "\x27" ++ k ++ "\x27: " ++ pyRepr v
  | (k, v) :: es => "\x27" ++ k ++ "\x27: " ++ pyRepr v ++ ", " ++ pyReprEntries es
end

/-- Python `str(v)`: the identity on strings, `repr` otherwise. -/
def pyStr (v : PyVal) : String :=
  match v with
  | .vStr s => s
  | v => pyRepr v

/-- Python `s.lower()` (ASCII case folding, which is all the OS names need). -/
def pyLower (s : String) : String :=
  ⟨s.data.map Char.toLower⟩

/-- Python iteration `for x in v`: lists yield their items, strings their
characters, dictionaries their keys; other values raise `TypeError`. -/
def pyIter : PyVal → Except PyError (List PyVal)
  | .vList xs => .ok xs
  | .vStr s => .ok (s.data.map fun c => .vStr ⟨[c]⟩)
  | .vDict es => .ok (es.map fun p => .vStr p.1)
  | _ => .error (.typeError "object is not iterable")

/-- Accumulator-style worker for `splitSlash`. -/
def splitSlashGo (acc : List Char) : List Char → List String
  | [] => [⟨acc⟩]
  | c :: cs => if c = '/' then (⟨acc⟩ : String) :: splitSlashGo [] cs
               else splitSlashGo (acc ++ [c]) cs

/-- Python `s.split("/")`.  The source splits one slash at a time with
`property.split("/", maxsplit=1)` and recurses on the remainder; the full
segmentation realizes exactly that traversal. -/
def splitSlash (s : String) : List String :=
  splitSlashGo [] s.data

/-- Substring test on character lists, modelling Python `needle in haystack`
for strings. -/
def subOfChars (needle : List Char) : List Char → Bool
  | [] => needle.isEmpty
  | c :: cs => needle.isPrefixOf (c :: cs) || subOfChars needle cs

/-- Worker for `is_present`: the segments of the property path are consumed
left to right, mirroring the recursive `property.split("/", maxsplit=1)` in
the source.  On the last segment the source evaluates
`property in confdict and confdict[property]`; on earlier segments it
evaluates `confdict.get(key, None)`, returns `False` when that is falsy and
recurses into the value otherwise.  Non-dictionary values behave as they
would in Python (`in` on strings is a substring test, `.get` is missing on
non-dictionaries, and so on). -/
def is_present_go : List String → PyVal → Except PyError Bool
  | [property], confdict =>
    match confdict with
    | .vDict d => .ok (dictGetD d property .vNone).truthy
    | .vStr s =>
      if subOfChars property.data s.data then
        .error (.typeError "string indices must be integers")
      else
        .ok false
    | .vList xs =>
      if xs.any (fun x => match x with | .vStr t => t == property | _ => false) then
        .error (.typeError "list indices must be integers or slices, not str")
      else
        .ok false
    | _ => .error (.typeError "argument is not iterable")
  | property :: subpath, confdict =>
    match confdict with
    | .vDict d =>
      let sub := dictGetD d property .vNone
      if sub.truthy then is_present_go subpath sub else .ok false
    | _ => .error (.attributeError "object has no attribute get")
  | [], _ => .ok false

/-- `is_present` from `MultihostHost.__init__` (multihost.py lines 209-217):
a slash-separated property path is present when every intermediate key holds
a truthy value and the final key is present with a truthy value. -/
def is_present (property : String) (confdict : PyVal) : Except PyError Bool :=
  is_present_go (splitSlash property) confdict

/-- Exception message for a missing required host field. -/
def missingFieldMsg (r : String) : String :=
  "\"" ++ r ++ "\" property is missing in host configuration"

/-- The required-field loop of `MultihostHost.__init__` (lines 219-221):
fields are checked in order; the first field whose `is_present` check is
falsy raises `ValueError`, and an exception inside `is_present` itself
propagates. -/
def checkRequired (rf : List String) (confdict : PyDict) : Except PyError Unit :=
  match rf with
  | [] => .ok ()
  | r :: rest =>
    match is_present r (.vDict confdict) with
    | .error e => .error e
    | .ok true => checkRequired rest confdict
    | .ok false => .error (.valueError (missingFieldMsg r))

/-- `MultihostHostOS` (multihost.py lines 171-173): the closed enumeration of
supported operating systems. -/
inductive MultihostHostOS where
  | Linux
  | Windows
deriving DecidableEq

/-- Enum value lookup `MultihostHostOS(os)`: finds the member whose value is
the given string, raising `ValueError` (modelled as `none`) otherwise. -/
def MultihostHostOS.ofString : String → Option MultihostHostOS
  | "linux" => some .Linux
  | "windows" => some .Windows
  | _ => none

/-- The SSH process wrapper classes from `pytest_mh.ssh` (external
collaborators; only their identity matters here). -/
inductive SSHProcessType where
  | SSHBashProcess
  | SSHPowerShellProcess
deriving DecidableEq

/-- The data with which `MultihostHost.__init__` constructs its `SSHClient`
(multihost.py lines 273-279); the client itself is an external collaborator,
so only its construction parameters are modelled. -/
structure SSHClientData where
  host : PyVal
  user : PyVal
  password : PyVal
  shell : SSHProcessType

/-- The fields of a constructed `MultihostHost` (multihost.py lines 224-283).
The `cli` field models `CLIBuilder(self.ssh)` by recording the session it is
built over. -/
structure MultihostHost where
  hostname : PyVal
  role : PyVal
  username : PyVal
  password : PyVal
  ip : PyVal
  config : PyVal
  artifacts : PyVal
  os : MultihostHostOS
  shell : SSHProcessType
  ssh : SSHClientData
  cli : SSHClientData

/-- `MultihostHost.required_fields` (multihost.py lines 290-292). -/
def MultihostHost.required_fields : List String :=
  ["hostname", "role", "username", "password"]

/-- Exception message for an unsupported `os` value. -/
def osUnsupportedMsg (os : String) : String :=
  "Value \"" ++ os ++ "\" is not supported in os field of host configuration"

/-- The OS determination step of `MultihostHost.__init__` (lines 256-262):
`os = str(confdict.get("os", MultihostHostOS.Linux.value)).lower()` followed
by the enum lookup, whose failure is re-raised as a `ValueError` about the
os field. -/
def parseHostOS (confdict : PyDict) : Except PyError MultihostHostOS :=
  let os := pyLower (pyStr (dictGetD confdict "os" (.vStr "linux")))
  match MultihostHostOS.ofString os with
  | some o => .ok o
  | none => .error (.valueError (osUnsupportedMsg os))

/-- The body of `MultihostHost.__init__` (lines 209-283) up to the point
where the `SSHClient` is created: required-field validation, field
assignment, OS determination and shell dispatch.  Every exception the source
can raise is raised here, before any SSH state exists; the returned record
holds the fields the source assigns, including the parameters of the
`SSHClient` it then constructs (its `host` argument is
`self._get_ssh_host()`, the ip when truthy, else the hostname). -/
def hostInitCore (rf : List String) (confdict : PyDict) : Except PyError MultihostHost :=
  match checkRequired rf confdict with
  | .error e => .error e
  | .ok _ =>
    match assocLookup confdict "hostname" with
    | none => .error (.keyError "hostname")
    | some hostname =>
      match assocLookup confdict "role" with
      | none => .error (.keyError "role")
      | some role =>
        match assocLookup confdict "username" with
        | none => .error (.keyError "username")
        | some username =>
          match assocLookup confdict "password" with
          | none => .error (.keyError "password")
          | some password =>
            let ip := match assocLookup confdict "ip" with
                      | some v => v
                      | none => .vStr ""
            let config := dictGetD confdict "config" (.vDict [])
            let artifacts := dictGetD confdict "artifacts" (.vList [])
            match parseHostOS confdict with
            | .error e => .error e
            | .ok os =>
              let shell := match os with
                           | .Linux => SSHProcessType.SSHBashProcess
                           | .Windows => SSHProcessType.SSHPowerShellProcess
              let sshHost := if ip.truthy then ip else hostname
              let ssh : SSHClientData :=
                { host := sshHost, user := username, password := password, shell := shell }
              .ok { hostname := hostname, role := role, username := username,
                    password := password, ip := ip, config := config,
                    artifacts := artifacts, os := os, shell := shell,
                    ssh := ssh, cli := ssh }

/-- Externally visible SSH activity of `MultihostHost.__init__`: whether the
`SSHClient` was constructed (line 273) and whether `self.ssh.connect()` was
invoked (lines 287-288). -/
structure HostInitTrace where
  ssh_constructed : Bool
  ssh_connect_called : Bool
deriving DecidableEq

/-- `MultihostHost.__init__` (multihost.py lines 199-288) with its SSH side
effects recorded: on any validation failure no SSH client exists; on success
the client is constructed and `connect()` is called exactly when the owning
configuration does not request lazy SSH. -/
def MultihostHost.init (rf : List String) (lazy_ssh : Bool) (confdict : PyDict) :
    HostInitTrace × Except PyError MultihostHost :=
  match hostInitCore rf confdict with
  | .error e => (⟨false, false⟩, .error e)
  | .ok h => (⟨true, !lazy_ssh⟩, .ok h)

/-- Sequential domain construction inside `MultihostConfig.__init__` (lines
37-38): `create_domain` is called on each entry of the domains iterable, in
order, appending its result; a failing call propagates immediately.  Returns
the list of entries on which `create_domain` was actually called alongside
the outcome. -/
def configDomainsGo {δ : Type _} (create_domain : PyVal → Except PyError δ) :
    List PyVal → List PyVal × Except PyError (List δ)
  | [] => ([], .ok [])
  | d :: ds =>
    match create_domain d with
    | .error e => ([d], .error e)
    | .ok x =>
      let (calls, res) := configDomainsGo create_domain ds
      (d :: calls,
       match res with
       | .ok xs => .ok (x :: xs)
       | .error e => .error e)

/-- `MultihostConfig.__init__` (multihost.py lines 24-38): the abstract
`create_domain` factory is a parameter.  If the `"domains"` key is absent the
constructor raises `ValueError` before calling `create_domain` at all;
otherwise it iterates the value, calling `create_domain` on each entry.
Returns the trace of `create_domain` calls and the constructed domain
list. -/
def MultihostConfig.init {δ : Type _} (create_domain : PyVal → Except PyError δ)
    (confdict : PyDict) : List PyVal × Except PyError (List δ) :=
  match assocLookup confdict "domains" with
  | none => ([], .error (.valueError "\"domains\" property is missing in multihost configuration"))
  | some v =>
    match pyIter v with
    | .error e => ([], .error e)
    | .ok ds => configDomainsGo create_domain ds

/-- Python hashability of a value: lists and dictionaries are unhashable,
so using them as a dictionary-membership probe raises `TypeError`. -/
def PyVal.pyHashable : PyVal → Bool
  | .vList _ => false
  | .vDict _ => false
  | _ => true

/-- The host class `Domain.create_host` dispatches to: either the generic
`MultihostHost` fallback or the subclass registered for the role. -/
inductive SelectedHostClass where
  | genericHost
  | customHost (role : String)
deriving DecidableEq

/-- A host subclass constructor supplied through `role_to_host_type`
(abstract extension point): given the host configuration dictionary it
produces the same shape of result as `MultihostHost.init`. -/
abbrev HostCtor := PyDict → HostInitTrace × Except PyError MultihostHost

/-- `MultihostDomain.create_host` (multihost.py lines 100-116): a missing or
falsy `"role"` raises `ValueError`; an unhashable role value raises
`TypeError` at the `role in self.role_to_host_type` membership test; a role
absent from `role_to_host_type` falls back to the generic `MultihostHost`
class.  The first component records which class was instantiated (`none`
when the failure happened before any class was selected). -/
def MultihostDomain.create_host (role_to_host_type : List (String × HostCtor))
    (lazy_ssh : Bool) (confdict : PyDict) :
    Option SelectedHostClass × (HostInitTrace × Except PyError MultihostHost) :=
  let roleVal := dictGetD confdict "role" .vNone
  if roleVal.truthy then
    if roleVal.pyHashable then
      match (match roleVal with | .vStr s => assocLookup role_to_host_type s | _ => none),
            roleVal with
      | some ctor, .vStr s => (some (.customHost s), ctor confdict)
      | _, _ =>
        (some .genericHost, MultihostHost.init MultihostHost.required_fields lazy_ssh confdict)
    else
      (none, (⟨false, false⟩, .error (.typeError "unhashable type")))
  else
    (none, (⟨false, false⟩, .error (.valueError "\"role\" property is missing in host configuration")))

/-- A role subclass constructor supplied through `role_to_role_type`
(abstract extension point): `cls(mh, host.role, host)`. -/
abbrev RoleCtor (μ ρ : Type _) := μ → PyVal → MultihostHost → ρ

/-- `MultihostDomain.create_role` (multihost.py lines 118-134): a role absent
from `role_to_role_type` raises `ValueError` (no fallback); otherwise the
mapped class is instantiated with the fixture, the host role and the host. -/
def MultihostDomain.create_role {μ ρ : Type _}
    (role_to_role_type : List (String × RoleCtor μ ρ)) (mh : μ) (host : MultihostHost) :
    Except PyError ρ :=
  if host.role.pyHashable then
    match (match host.role with | .vStr s => assocLookup role_to_role_type s | _ => none) with
    | none => .error (.valueError ("Unexpected role: " ++ pyStr host.role))
    | some ctor => .ok (ctor mh host.role host)
  else
    .error (.typeError "unhashable type")

/-- Result of `self.ssh.run(...)` (external collaborator); only `stdout` is
consumed by `collect_artifacts`. -/
structure SSHProcessResult where
  stdout : String

/-- The remote command built by the Linux branch of
`MultihostHost.collect_artifacts` (multihost.py lines 310-315), including
its f-string whitespace: makes a temp file, tars every remotely expanded
glob pattern, base64-encodes the archive and removes the temp file. -/
def linuxArtifactCommand (artifacts : List PyVal) : String :=
  "\n                    tmp=`mktemp /tmp/mh.host.artifacts.XXXXXXXXX`\n                    tar -czvf \"$tmp\" "
    ++ String.intercalate " "
        (artifacts.map fun x => "$(compgen -G \"" ++ pyStr x ++ "\")")
    ++ " &> /dev/null\n                    base64 \"$tmp\"\n                    rm -f \"$tmp\" &> /dev/null\n                "

/-- Externally visible activity of `collect_artifacts`: local directory
creations as `Path(dest).mkdir(parents=..., exist_ok=...)` calls, remote
commands passed to `self.ssh.run`, and local file writes of decoded
content. -/
structure CollectTrace where
  mkdir_calls : List (String × Bool × Bool)
  ssh_run_calls : List String
  file_writes : List (String × String)
deriving DecidableEq

/-- `MultihostHost.collect_artifacts` (multihost.py lines 294-326).  The SSH
`run` primitive and base64 decoding are external collaborators passed as
parameters.  With no artifacts declared the method returns immediately;
otherwise it creates the destination directory
(`parents=True, exist_ok=True`), then dispatches on the OS: Windows raises
`NotImplementedError` before any remote command, Linux runs the archive
command and writes the decoded stdout to
`dest/{role}_{hostname}.tgz`. -/
def MultihostHost.collect_artifacts
    (run : String → Except PyError SSHProcessResult)
    (b64decode : String → Except PyError String)
    (host : MultihostHost) (dest : String) :
    CollectTrace × Except PyError Unit :=
  if host.artifacts.truthy then
    let mk := [(dest, true, true)]
    match host.os with
    | .Windows =>
      (⟨mk, [], []⟩, .error (.notImplementedError "Artifacts are not supported on Windows machine"))
    | .Linux =>
      match pyIter host.artifacts with
      | .error e => (⟨mk, [], []⟩, .error e)
      | .ok items =>
        let command := linuxArtifactCommand items
        match run command with
        | .error e => (⟨mk, [command], []⟩, .error e)
        | .ok res =>
          match b64decode res.stdout with
          | .error e => (⟨mk, [command], []⟩, .error e)
          | .ok content =>
            let fname := dest ++ "/" ++ pyStr host.role ++ "_" ++ pyStr host.hostname ++ ".tgz"
            (⟨mk, [command], [(fname, content)]⟩, .ok ())
  else
    (⟨[], [], []⟩, .ok ())

/-- A `MultihostUtility` instance as the cascade sees it: its `setup()` and
`teardown()` methods are overridden by subclasses and may raise; each is
abstracted by its outcome (`none` = returns normally, `some e` = raises the
exception `e`). -/
structure MultihostUtility (ε : Type _) where
  setup_exc : Option ε
  teardown_exc : Option ε

/-- An attribute of an object as seen by `inspect.getmembers`: either a
`MultihostUtility` (or subtype) instance or anything else. -/
inductive ObjAttr (ε : Type _) where
  | util (u : MultihostUtility ε)
  | other

/-- Lexicographic code-point comparison on character lists, the order Python
uses to compare strings. -/
def charListLt : List Char → List Char → Bool
  | [], [] => false
  | [], _ :: _ => true
  | _ :: _, [] => false
  | a :: as, b :: bs => if a < b then true else if b < a then false else charListLt as bs

/-- Python string comparison `a < b`. -/
def nameLt (a b : String) : Bool :=
  charListLt a.data b.data

/-- Insertion step for the name-sorted order in which `inspect.getmembers`
returns attributes. -/
def insertByName {α : Type _} (p : String × α) : List (String × α) → List (String × α)
  | [] => [p]
  | q :: qs => if nameLt q.1 p.1 then q :: insertByName p qs else p :: q :: qs

/-- Name-sorted attribute list, the order `inspect.getmembers` yields. -/
def sortByName {α : Type _} (l : List (String × α)) : List (String × α) :=
  l.foldr insertByName []

/-- `MultihostUtility.GetUtilityAttributes` (multihost.py lines 446-457):
`inspect.getmembers(o, lambda attr: isinstance(attr, MultihostUtility))` —
all attributes of the object whose runtime type is `MultihostUtility` or a
subtype, as a name-sorted name-to-value dictionary. -/
def GetUtilityAttributes {ε : Type _} (o : List (String × ObjAttr ε)) :
    List (String × MultihostUtility ε) :=
  sortByName (o.filterMap fun p =>
    match p.2 with
    | .util u => some (p.1, u)
    | .other => none)

/-- The loop of `SetupUtilityAttributes` (lines 459-469): `setup()` is
called on each discovered utility in discovery order and the first raised
exception propagates immediately.  Returns the names of the utilities whose
`setup()` was actually invoked and the propagated exception, if any. -/
def setupGo {ε : Type _} : List (String × MultihostUtility ε) → List String × Option ε
  | [] => ([], none)
  | (n, u) :: rest =>
    match u.setup_exc with
    | some e => ([n], some e)
    | none =>
      let (calls, r) := setupGo rest
      (n :: calls, r)

/-- `MultihostUtility.SetupUtilityAttributes` (multihost.py lines 459-469),
as invoked by `MultihostRole.setup`. -/
def SetupUtilityAttributes {ε : Type _} (o : List (String × ObjAttr ε)) :
    List String × Option ε :=
  setupGo (GetUtilityAttributes o)

/-- The loop of `TeardownUtilityAttributes` (lines 480-485): `teardown()` is
called on every discovered utility; raised exceptions are appended to the
error list instead of propagating.  Returns the names of the utilities whose
`teardown()` was invoked and the collected exceptions, both in discovery
order. -/
def teardownGo {ε : Type _} : List (String × MultihostUtility ε) → List String × List ε
  | [] => ([], [])
  | (n, u) :: rest =>
    let (calls, errs) := teardownGo rest
    (n :: calls,
     match u.teardown_exc with
     | some e => e :: errs
     | none => errs)

/-- `MultihostUtility.TeardownUtilityAttributes` (multihost.py lines
471-488), as invoked by `MultihostRole.teardown`: after all `teardown()`
calls, a non-empty error list is raised as a single aggregate
`Exception(errors)` whose payload is the list of the original exception
objects. -/
def TeardownUtilityAttributes {ε : Type _} (o : List (String × ObjAttr ε)) :
    List String × Except (List ε) Unit :=
  let (calls, errs) := teardownGo (GetUtilityAttributes o)
  (calls, if errs.isEmpty then .ok () else .error errs)

theorem teardownGo_eq {ε : Type _} (l : List (String × MultihostUtility ε)) :
    teardownGo l = (l.map Prod.fst, l.filterMap fun p => p.2.teardown_exc) := by
  induction l with
  | nil => rfl
  | cons p rest ih =>
    obtain ⟨n, u⟩ := p
    cases h : u.teardown_exc <;> simp [teardownGo, ih, h]

/-- Claim C1: the teardown cascade calls `teardown()` on every discovered
utility (the trace lists every discovered attribute name, in discovery
order), and it raises a single aggregate error whose payload is exactly the
list of the raised exception objects in discovery order when at least one
`teardown()` raised, returning normally when none raised. -/
theorem teardown_cascade_aggregates (ε : Type) (o : List (String × ObjAttr ε)) :
    TeardownUtilityAttributes o =
      ((GetUtilityAttributes o).map Prod.fst,
       if ((GetUtilityAttributes o).filterMap fun p => p.2.teardown_exc).isEmpty
       then Except.ok ()
       else Except.error ((GetUtilityAttributes o).filterMap fun p => p.2.teardown_exc)) := by
  unfold TeardownUtilityAttributes
  rw [teardownGo_eq]

theorem setupGo_all_none {ε : Type _} (l : List (String × MultihostUtility ε))
    (h : ∀ p ∈ l, p.2.setup_exc = none) :
    setupGo l = (l.map Prod.fst, none) := by
  induction l with
  | nil => rfl
  | cons p rest ih =>
    obtain ⟨n, u⟩ := p
    have hp : u.setup_exc = none := h (n, u) (List.mem_cons_self _ _)
    simp [setupGo, hp, ih fun q hq => h q (List.mem_cons_of_mem _ hq)]

theorem setupGo_first_raises {ε : Type _} (pre : List (String × MultihostUtility ε))
    (n : String) (u : MultihostUtility ε) (post : List (String × MultihostUtility ε))
    (e : ε) (hpre : ∀ p ∈ pre, p.2.setup_exc = none) (hu : u.setup_exc = some e) :
    setupGo (pre ++ (n, u) :: post) = (pre.map Prod.fst ++ [n], some e) := by
  induction pre with
  | nil => simp [setupGo, hu]
  | cons q rest ih =>
    obtain ⟨qn, qu⟩ := q
    have hq : qu.setup_exc = none := hpre (qn, qu) (List.mem_cons_self _ _)
    simp [setupGo, hq, ih fun p hp => hpre p (List.mem_cons_of_mem _ hp)]

/-- Claim C2: the setup cascade calls `setup()` on the discovered utilities
in discovery order; when every `setup()` succeeds all utilities are set up,
and when the `setup()` of some utility raises, the exception propagates
immediately and no utility later in the discovery order has its `setup()`
called. -/
theorem setup_cascade_fail_fast (ε : Type) (o : List (String × ObjAttr ε)) :
    ((∀ p ∈ GetUtilityAttributes o, p.2.setup_exc = none) →
      SetupUtilityAttributes o = ((GetUtilityAttributes o).map Prod.fst, none))
    ∧ (∀ (pre : List (String × MultihostUtility ε)) (n : String)
         (u : MultihostUtility ε) (post : List (String × MultihostUtility ε)) (e : ε),
        GetUtilityAttributes o = pre ++ (n, u) :: post →
        (∀ p ∈ pre, p.2.setup_exc = none) →
        u.setup_exc = some e →
        SetupUtilityAttributes o = (pre.map Prod.fst ++ [n], some e)) := by
  constructor
  · intro h
    unfold SetupUtilityAttributes
    exact setupGo_all_none _ h
  · intro pre n u post e hsplit hpre hu
    unfold SetupUtilityAttributes
    rw [hsplit]
    exact setupGo_first_raises pre n u post e hpre hu

/-- Witness for claim C2: three utilities discovered in name order
`a, b, c`; `b.setup()` raises `1`, so `a` and `b` are set up, the exception
propagates and `c` is never set up. -/
theorem setup_cascade_fail_fast_witness :
    SetupUtilityAttributes
      [("b", ObjAttr.util ⟨some 1, none⟩), ("a", ObjAttr.util ⟨none, none⟩),
       ("c", ObjAttr.util (⟨none, none⟩ : MultihostUtility Nat))]
    = (["a", "b"], some 1) :=
  (setup_cascade_fail_fast Nat _).2
    [("a", ⟨none, none⟩)] "b" ⟨some 1, none⟩ [("c", ⟨none, none⟩)] 1
    rfl (by decide) rfl

/-- Claim C3: a configuration document without a `"domains"` key makes
`MultihostConfig.__init__` raise `ValueError`, with `create_domain` never
called and the domain list left empty. -/
theorem config_init_missing_domains (δ : Type) (create_domain : PyVal → Except PyError δ)
    (confdict : PyDict) (h : assocLookup confdict "domains" = none) :
    MultihostConfig.init create_domain confdict
      = ([], .error (.valueError "\"domains\" property is missing in multihost configuration")) := by
  unfold MultihostConfig.init
  rw [h]

/-- Witness for claim C3: a document with only an unrelated key. -/
theorem config_init_missing_domains_witness :
    MultihostConfig.init (fun _ => Except.ok ()) [("other", PyVal.vNone)]
      = ([], .error (.valueError "\"domains\" property is missing in multihost configuration")) :=
  config_init_missing_domains Unit _ _ rfl

/-- Claim C5: a host whose role has no entry in `role_to_role_type` makes
`MultihostDomain.create_role` raise `ValueError` and instantiate no role;
the host value itself is untouched and the very same host succeeds against
any mapping that does carry its role. -/
theorem create_role_unmapped_role (μ ρ : Type) (role_to_role_type : List (String × RoleCtor μ ρ))
    (mh : μ) (host : MultihostHost) (s : String)
    (hrole : host.role = .vStr s) (habs : assocLookup role_to_role_type s = none) :
    MultihostDomain.create_role role_to_role_type mh host
      = .error (.valueError ("Unexpected role: " ++ s))
    ∧ ∀ (m₂ : List (String × RoleCtor μ ρ)) (ctor : RoleCtor μ ρ),
        assocLookup m₂ s = some ctor →
        MultihostDomain.create_role m₂ mh host = .ok (ctor mh host.role host) := by
  constructor
  · unfold MultihostDomain.create_role
    rw [hrole]
    simp [PyVal.pyHashable, habs, pyStr]
  · intro m₂ ctor hc
    unfold MultihostDomain.create_role
    rw [hrole]
    simp [PyVal.pyHashable, hc]

/-- Concrete host used to instantiate role/artifact claims: a plain Linux
host named `h1` with role `r1`. -/
def sampleLinuxHost : MultihostHost :=
  { hostname := .vStr "h1", role := .vStr "r1", username := .vStr "u",
    password := .vStr "p", ip := .vStr "", config := .vDict [],
    artifacts := .vList [.vStr "/var/log/app.log"], os := .Linux,
    shell := .SSHBashProcess,
    ssh := { host := .vStr "h1", user := .vStr "u", password := .vStr "p",
             shell := .SSHBashProcess },
    cli := { host := .vStr "h1", user := .vStr "u", password := .vStr "p",
             shell := .SSHBashProcess } }

/-- Witness for claim C5: no mapping carries role `r1`, so role creation for
`sampleLinuxHost` fails with the lookup `ValueError`. -/
theorem create_role_unmapped_role_witness :
    MultihostDomain.create_role ([] : List (String × RoleCtor Unit Unit)) () sampleLinuxHost
      = .error (.valueError "Unexpected role: r1") :=
  (create_role_unmapped_role Unit Unit [] () sampleLinuxHost "r1" rfl rfl).1

/-- Claim C10: the `"os"` field is converted with `str(...)` and lowercased
before the enum check, so two values with the same lowercase form are
classified identically, and `"Linux"`, `"LINUX"`, `"Windows"` are accepted
exactly like their lowercase forms — also through full host
construction. -/
theorem os_field_case_insensitive :
    (∀ s t : String, pyLower s = pyLower t →
      parseHostOS [("os", .vStr s)] = parseHostOS [("os", .vStr t)])
    ∧ parseHostOS [("os", .vStr "Linux")] = .ok .Linux
    ∧ parseHostOS [("os", .vStr "LINUX")] = .ok .Linux
    ∧ parseHostOS [("os", .vStr "Windows")] = .ok .Windows
    ∧ (MultihostHost.init MultihostHost.required_fields true
        [("hostname", .vStr "h"), ("role", .vStr "r"), ("username", .vStr "u"),
         ("password", .vStr "p"), ("os", .vStr "Linux")])
      = (MultihostHost.init MultihostHost.required_fields true
        [("hostname", .vStr "h"), ("role", .vStr "r"), ("username", .vStr "u"),
         ("password", .vStr "p"), ("os", .vStr "linux")]) := by
  refine ⟨?_, rfl, rfl, rfl, rfl⟩
  intro s t h
  have e1 : parseHostOS [("os", .vStr s)]
      = (match MultihostHostOS.ofString (pyLower s) with
         | some o => .ok o
         | none => .error (.valueError (osUnsupportedMsg (pyLower s)))) := rfl
  have e2 : parseHostOS [("os", .vStr t)]
      = (match MultihostHostOS.ofString (pyLower t) with
         | some o => .ok o
         | none => .error (.valueError (osUnsupportedMsg (pyLower t)))) := rfl
  rw [e1, e2, h]

/-- Witness for claim C10: a mixed-case `os` value classifies exactly like
its lowercase form. -/
theorem os_field_case_insensitive_witness :
    parseHostOS [("os", .vStr "WiNdOwS")] = parseHostOS [("os", .vStr "windows")] :=
  os_field_case_insensitive.1 "WiNdOwS" "windows" rfl

/-- Claim C8: with an empty artifacts list `collect_artifacts` returns
normally with no filesystem or remote activity at all; on a Windows host
with a non-empty artifacts list it raises `NotImplementedError` with the
destination directory created but no remote command ever passed to the SSH
session and no file written. -/
theorem collect_artifacts_windows_unsupported
    (run : String → Except PyError SSHProcessResult)
    (b64decode : String → Except PyError String)
    (host : MultihostHost) (dest : String) :
    (host.artifacts.truthy = false →
      MultihostHost.collect_artifacts run b64decode host dest = (⟨[], [], []⟩, .ok ()))
    ∧ (host.artifacts.truthy = true → host.os = .Windows →
      MultihostHost.collect_artifacts run b64decode host dest
        = (⟨[(dest, true, true)], [], []⟩,
           .error (.notImplementedError "Artifacts are not supported on Windows machine"))) := by
  constructor
  · intro h
    simp [MultihostHost.collect_artifacts, h]
  · intro h hos
    simp [MultihostHost.collect_artifacts, h, hos]

/-- Concrete host used to instantiate the Windows artifact claims. -/
def sampleWindowsHost : MultihostHost :=
  { hostname := .vStr "w1", role := .vStr "ad", username := .vStr "u",
    password := .vStr "p", ip := .vStr "", config := .vDict [],
    artifacts := .vList [.vStr "C:/logs/app.log"], os := .Windows,
    shell := .SSHPowerShellProcess,
    ssh := { host := .vStr "w1", user := .vStr "u", password := .vStr "p",
             shell := .SSHPowerShellProcess },
    cli := { host := .vStr "w1", user := .vStr "u", password := .vStr "p",
             shell := .SSHPowerShellProcess } }

/-- Concrete host with an empty artifacts list. -/
def sampleNoArtifactsHost : MultihostHost :=
  { sampleLinuxHost with artifacts := .vList [] }

/-- Witness for claim C8: the Windows host with one artifact raises
`NotImplementedError` with no SSH command, and the host with no artifacts
does nothing. -/
theorem collect_artifacts_windows_unsupported_witness :
    MultihostHost.collect_artifacts (fun _ => .ok ⟨""⟩) (fun s => .ok s)
      sampleWindowsHost "/tmp/artifacts"
      = (⟨[("/tmp/artifacts", true, true)], [], []⟩,
         .error (.notImplementedError "Artifacts are not supported on Windows machine"))
    ∧ MultihostHost.collect_artifacts (fun _ => .ok ⟨""⟩) (fun s => .ok s)
        sampleNoArtifactsHost "/tmp/artifacts"
      = (⟨[], [], []⟩, .ok ()) :=
  ⟨(collect_artifacts_windows_unsupported _ _ sampleWindowsHost _).2 rfl rfl,
   (collect_artifacts_windows_unsupported _ _ sampleNoArtifactsHost _).1 rfl⟩

/-- Claim C9: on a Windows host with a non-empty artifacts list the error
path is not free of local side effects — the destination directory is
created (`Path(dest).mkdir(parents=True, exist_ok=True)`, so parents are
created and the call is idempotent) before `NotImplementedError` is
raised. -/
theorem collect_artifacts_windows_creates_dest
    (run : String → Except PyError SSHProcessResult)
    (b64decode : String → Except PyError String)
    (host : MultihostHost) (dest : String)
    (h : host.artifacts.truthy = true) (hos : host.os = .Windows) :
    (MultihostHost.collect_artifacts run b64decode host dest).1.mkdir_calls
      = [(dest, true, true)]
    ∧ (MultihostHost.collect_artifacts run b64decode host dest).2
      = .error (.notImplementedError "Artifacts are not supported on Windows machine") := by
  simp [MultihostHost.collect_artifacts, h, hos]

/-- Witness for claim C9 on the concrete Windows host. -/
theorem collect_artifacts_windows_creates_dest_witness :
    (MultihostHost.collect_artifacts (fun _ => .ok ⟨"b64"⟩) (fun s => .ok s)
        sampleWindowsHost "/tmp/out").1.mkdir_calls = [("/tmp/out", true, true)]
    ∧ (MultihostHost.collect_artifacts (fun _ => .ok ⟨"b64"⟩) (fun s => .ok s)
        sampleWindowsHost "/tmp/out").2
      = .error (.notImplementedError "Artifacts are not supported on Windows machine") :=
  collect_artifacts_windows_creates_dest _ _ sampleWindowsHost "/tmp/out" rfl rfl

/-- Counterexample for claim C4: the entry `{"role": "ldap"}` has a
non-blank role with no entry in an empty `role_to_host_type`, yet
`create_host` does not succeed — the generic `MultihostHost` fallback
constructor raises `ValueError` because `"hostname"` is missing — so
"create_host succeeds" does not hold for every such entry. -/
theorem create_host_unknown_role_counterexample :
    (dictGetD [("role", .vStr "ldap")] "role" .vNone).truthy = true
    ∧ assocLookup ([] : List (String × HostCtor)) "ldap" = none
    ∧ MultihostDomain.create_host ([] : List (String × HostCtor)) false [("role", .vStr "ldap")]
      = (some .genericHost,
         (⟨false, false⟩, .error (.valueError (missingFieldMsg "hostname")))) :=
  ⟨rfl, rfl, rfl⟩

/-- Claim C4 (amended): with a non-blank, hashable role value that has no
entry in `role_to_host_type`, `create_host` selects the generic
`MultihostHost` class — the unknown role itself is never an error — and
returns exactly the result of generic `MultihostHost` construction on the
entry (so it succeeds precisely when that construction succeeds); a missing
or blank role raises `ValueError` before any host class is selected or
instantiated. -/
theorem create_host_generic_fallback (role_to_host_type : List (String × HostCtor))
    (lazy_ssh : Bool) (confdict : PyDict) :
    ((dictGetD confdict "role" .vNone).truthy = true →
     (dictGetD confdict "role" .vNone).pyHashable = true →
     (∀ s : String, dictGetD confdict "role" .vNone = .vStr s →
        assocLookup role_to_host_type s = none) →
     MultihostDomain.create_host role_to_host_type lazy_ssh confdict
       = (some .genericHost,
          MultihostHost.init MultihostHost.required_fields lazy_ssh confdict))
    ∧ ((dictGetD confdict "role" .vNone).truthy = false →
       MultihostDomain.create_host role_to_host_type lazy_ssh confdict
         = (none, (⟨false, false⟩,
            .error (.valueError "\"role\" property is missing in host configuration")))) := by
  constructor
  · intro ht hh habs
    cases hv : dictGetD confdict "role" .vNone with
    | vStr s =>
      have hl := habs s hv
      rw [hv] at ht hh
      simp [MultihostDomain.create_host, hv, ht, hh, hl]
    | vNone =>
      rw [hv] at ht
      simp [PyVal.truthy] at ht
    | vBool b =>
      rw [hv] at ht hh
      simp [MultihostDomain.create_host, hv, ht, hh]
    | vInt n =>
      rw [hv] at ht hh
      simp [MultihostDomain.create_host, hv, ht, hh]
    | vList xs =>
      rw [hv] at hh
      simp [PyVal.pyHashable] at hh
    | vDict es =>
      rw [hv] at hh
      simp [PyVal.pyHashable] at hh
  · intro hf
    simp [MultihostDomain.create_host, hf]

/-- Witness for the amended claim C4: a complete entry with unknown role
`r9` falls back to generic host construction, and an entry with a blank role
fails with the role `ValueError`. -/
theorem create_host_generic_fallback_witness :
    MultihostDomain.create_host ([] : List (String × HostCtor)) true
      [("hostname", .vStr "h"), ("role", .vStr "r9"),
       ("username", .vStr "u"), ("password", .vStr "p")]
      = (some .genericHost,
         MultihostHost.init MultihostHost.required_fields true
           [("hostname", .vStr "h"), ("role", .vStr "r9"),
            ("username", .vStr "u"), ("password", .vStr "p")])
    ∧ MultihostDomain.create_host ([] : List (String × HostCtor)) true [("role", .vStr "")]
      = (none, (⟨false, false⟩,
         .error (.valueError "\"role\" property is missing in host configuration"))) :=
  ⟨(create_host_generic_fallback [] true _).1 rfl rfl (fun _ _ => rfl),
   (create_host_generic_fallback [] true _).2 rfl⟩

theorem is_present_single (r : String) (d : PyDict) (h : splitSlash r = [r]) :
    is_present r (.vDict d) = .ok (dictGetD d r .vNone).truthy := by
  unfold is_present
  rw [h]
  rfl

theorem checkRequired_missing (rf : List String) (d : PyDict)
    (hok : ∀ r ∈ rf, (is_present r (.vDict d)).isOk = true)
    (hbad : ∃ r ∈ rf, is_present r (.vDict d) = .ok false) :
    ∃ r ∈ rf, checkRequired rf d = .error (.valueError (missingFieldMsg r))
      ∧ is_present r (.vDict d) = .ok false := by
  induction rf with
  | nil => rcases hbad with ⟨r, hr, _⟩; cases hr
  | cons r0 rest ih =>
    have h0 := hok r0 (List.mem_cons_self _ _)
    cases hp : is_present r0 (.vDict d) with
    | error e => rw [hp] at h0; cases h0
    | ok b =>
      cases b with
      | false =>
        exact ⟨r0, List.mem_cons_self _ _, by simp [checkRequired, hp], hp⟩
      | true =>
        have hbad' : ∃ r ∈ rest, is_present r (.vDict d) = .ok false := by
          rcases hbad with ⟨r, hr, hf⟩
          rcases List.mem_cons.mp hr with h | h
          · subst h; rw [hp] at hf; cases hf
          · exact ⟨r, h, hf⟩
        rcases ih (fun q hq => hok q (List.mem_cons_of_mem _ hq)) hbad' with ⟨r, hr, hcr, hf⟩
        exact ⟨r, List.mem_cons_of_mem _ hr, by simp [checkRequired, hp, hcr], hf⟩

/-- Claim C6: the required host fields are `hostname`, `role`, `username`,
`password` plus whatever a subtype adds, each checked with nested-path
lookup; whenever some required field is missing or blank at its named depth
(and no required-field check itself raises on a malformed intermediate
value), `MultihostHost.__init__` raises the `ValueError` naming such a
field, before any other construction work — no field assignment, no SSH
client, no connection. -/
theorem host_init_missing_required (rf : List String) (lazy_ssh : Bool) (confdict : PyDict) :
    MultihostHost.required_fields = ["hostname", "role", "username", "password"]
    ∧ ((∀ r ∈ rf, (is_present r (.vDict confdict)).isOk = true) →
       (∃ r ∈ rf, is_present r (.vDict confdict) = .ok false) →
       ∃ r ∈ rf, MultihostHost.init rf lazy_ssh confdict
          = (⟨false, false⟩, .error (.valueError (missingFieldMsg r)))
          ∧ is_present r (.vDict confdict) = .ok false) := by
  refine ⟨rfl, fun hok hbad => ?_⟩
  rcases checkRequired_missing rf confdict hok hbad with ⟨r, hr, hcr, hf⟩
  exact ⟨r, hr, by simp [MultihostHost.init, hostInitCore, hcr], hf⟩

/-- Witness for claim C6: an entry carrying only a hostname fails
construction with a missing-field `ValueError` for one of the default
required fields. -/
theorem host_init_missing_required_witness :
    ∃ r ∈ MultihostHost.required_fields,
      MultihostHost.init MultihostHost.required_fields false [("hostname", PyVal.vStr "h")]
        = (⟨false, false⟩, .error (.valueError (missingFieldMsg r)))
      ∧ is_present r (.vDict [("hostname", PyVal.vStr "h")]) = .ok false :=
  (host_init_missing_required MultihostHost.required_fields false _).2
    (by decide) ⟨"role", by decide, rfl⟩

theorem checkRequired_noslash_cases (rf : List String) (d : PyDict)
    (hns : ∀ r ∈ rf, splitSlash r = [r]) :
    checkRequired rf d = .ok ()
    ∨ ∃ r ∈ rf, checkRequired rf d = .error (.valueError (missingFieldMsg r)) := by
  induction rf with
  | nil => exact Or.inl rfl
  | cons r0 rest ih =>
    have h0 := is_present_single r0 d (hns r0 (List.mem_cons_self _ _))
    cases hb : (dictGetD d r0 .vNone).truthy with
    | false =>
      rw [hb] at h0
      exact Or.inr ⟨r0, List.mem_cons_self _ _, by simp [checkRequired, h0]⟩
    | true =>
      rw [hb] at h0
      rcases ih (fun r hr => hns r (List.mem_cons_of_mem _ hr)) with hok | ⟨r, hr, herr⟩
      · exact Or.inl (by simp [checkRequired, h0, hok])
      · exact Or.inr ⟨r, List.mem_cons_of_mem _ hr, by simp [checkRequired, h0, herr]⟩

theorem checkRequired_ok_mem (rf : List String) (d : PyDict)
    (hcr : checkRequired rf d = .ok ()) :
    ∀ r ∈ rf, is_present r (.vDict d) = .ok true := by
  induction rf with
  | nil => intro r hr; cases hr
  | cons r0 rest ih =>
    intro r hr
    cases hp : is_present r0 (.vDict d) with
    | error e => rw [checkRequired, hp] at hcr; cases hcr
    | ok b =>
      cases b with
      | false => rw [checkRequired, hp] at hcr; cases hcr
      | true =>
        rw [checkRequired, hp] at hcr
        rcases List.mem_cons.mp hr with h | h
        · subst h; exact hp
        · exact ih hcr r h

theorem lookup_of_true (r : String) (d : PyDict) (hns : splitSlash r = [r])
    (h : is_present r (.vDict d) = .ok true) :
    ∃ v, assocLookup d r = some v := by
  rw [is_present_single r d hns] at h
  have ht : (dictGetD d r .vNone).truthy = true := by
    injection h
  cases hl : assocLookup d r with
  | none =>
    rw [dictGetD, hl] at ht
    cases ht
  | some v => exact ⟨v, rfl⟩

theorem parseHostOS_no_os (d : PyDict) (h : assocLookup d "os" = none) :
    parseHostOS d = .ok .Linux := by
  have e : dictGetD d "os" (.vStr "linux") = .vStr "linux" := by
    simp [dictGetD, h]
  unfold parseHostOS
  rw [e]
  rfl

theorem hostInitCore_ok_fields (rf : List String) (d : PyDict) (h : MultihostHost)
    (hc : hostInitCore rf d = .ok h) :
    parseHostOS d = .ok h.os
    ∧ h.shell = (match h.os with
                 | .Linux => SSHProcessType.SSHBashProcess
                 | .Windows => SSHProcessType.SSHPowerShellProcess) := by
  unfold hostInitCore at hc
  cases hcr : checkRequired rf d with
  | error e => simp only [hcr] at hc; exact Except.noConfusion hc
  | ok u =>
    simp only [hcr] at hc
    cases hvh : assocLookup d "hostname" with
    | none => simp only [hvh] at hc; exact Except.noConfusion hc
    | some vh =>
      simp only [hvh] at hc
      cases hvr : assocLookup d "role" with
      | none => simp only [hvr] at hc; exact Except.noConfusion hc
      | some vr =>
        simp only [hvr] at hc
        cases hvu : assocLookup d "username" with
        | none => simp only [hvu] at hc; exact Except.noConfusion hc
        | some vu =>
          simp only [hvu] at hc
          cases hvp : assocLookup d "password" with
          | none => simp only [hvp] at hc; exact Except.noConfusion hc
          | some vp =>
            simp only [hvp] at hc
            cases hpos : parseHostOS d with
            | error e => simp only [hpos] at hc; exact Except.noConfusion hc
            | ok os =>
              simp only [hpos] at hc
              injection hc with hc'
              subst hc'
              exact ⟨rfl, rfl⟩

/-- Claim C7: a host entry whose `"os"` value is outside the closed
enumeration after the `str(...).lower()` normalization makes
`MultihostHost.__init__` raise `ValueError` with no `SSHClient` constructed
and no connection attempted; an absent `"os"` defaults to Linux; and the
OS-to-shell dispatch maps Linux to the bash process wrapper and Windows to
the PowerShell process wrapper. -/
theorem host_init_os_validation (lazy_ssh : Bool) (confdict : PyDict) :
    (MultihostHostOS.ofString (pyLower (pyStr (dictGetD confdict "os" (.vStr "linux")))) = none →
      ∃ msg, MultihostHost.init MultihostHost.required_fields lazy_ssh confdict
        = (⟨false, false⟩, .error (.valueError msg)))
    ∧ (∀ h : MultihostHost, assocLookup confdict "os" = none →
        (MultihostHost.init MultihostHost.required_fields lazy_ssh confdict).2 = .ok h →
        h.os = .Linux)
    ∧ (∀ h : MultihostHost,
        (MultihostHost.init MultihostHost.required_fields lazy_ssh confdict).2 = .ok h →
        h.shell = (match h.os with
                   | .Linux => SSHProcessType.SSHBashProcess
                   | .Windows => SSHProcessType.SSHPowerShellProcess)) := by
  have hinv : ∀ h : MultihostHost,
      (MultihostHost.init MultihostHost.required_fields lazy_ssh confdict).2 = .ok h →
      hostInitCore MultihostHost.required_fields confdict = .ok h := by
    intro h hok
    cases hcore : hostInitCore MultihostHost.required_fields confdict with
    | error e => simp [MultihostHost.init, hcore] at hok
    | ok h0 =>
      simp [MultihostHost.init, hcore] at hok
      rw [hok]
  refine ⟨?_, ?_, ?_⟩
  · intro hos
    rcases checkRequired_noslash_cases MultihostHost.required_fields confdict (by decide)
      with hcr | ⟨r, hr, hcr⟩
    · have hmem := checkRequired_ok_mem _ _ hcr
      obtain ⟨vh, hvh⟩ := lookup_of_true "hostname" confdict rfl (hmem _ (by decide))
      obtain ⟨vr, hvr⟩ := lookup_of_true "role" confdict rfl (hmem _ (by decide))
      obtain ⟨vu, hvu⟩ := lookup_of_true "username" confdict rfl (hmem _ (by decide))
      obtain ⟨vp, hvp⟩ := lookup_of_true "password" confdict rfl (hmem _ (by decide))
      have hpos : parseHostOS confdict
          = .error (.valueError (osUnsupportedMsg
              (pyLower (pyStr (dictGetD confdict "os" (.vStr "linux")))))) := by
        simp only [parseHostOS, hos]
      refine ⟨osUnsupportedMsg (pyLower (pyStr (dictGetD confdict "os" (.vStr "linux")))), ?_⟩
      simp [MultihostHost.init, hostInitCore, hcr, hvh, hvr, hvu, hvp, hpos]
    · exact ⟨missingFieldMsg r, by simp [MultihostHost.init, hostInitCore, hcr]⟩
  · intro h hosnone hok
    have hcore := hinv h hok
    have hfields := hostInitCore_ok_fields _ _ _ hcore
    have hlin := parseHostOS_no_os confdict hosnone
    rw [hfields.1] at hlin
    injection hlin
  · intro h hok
    exact (hostInitCore_ok_fields _ _ _ (hinv h hok)).2

/-- Witness for claim C7: `os: "bogus"` on an otherwise complete entry
fails before SSH, an entry without `os` constructs a Linux host, and both a
Linux and a Windows host get the matching shell wrapper. -/
theorem host_init_os_validation_witness :
    (∃ msg, MultihostHost.init MultihostHost.required_fields false
        [("hostname", .vStr "h"), ("role", .vStr "r"), ("username", .vStr "u"),
         ("password", .vStr "p"), ("os", .vStr "bogus")]
      = (⟨false, false⟩, .error (.valueError msg)))
    ∧ ∀ h : MultihostHost,
        (MultihostHost.init MultihostHost.required_fields false
          [("hostname", .vStr "h"), ("role", .vStr "r"), ("username", .vStr "u"),
           ("password", .vStr "p")]).2 = .ok h →
        h.os = .Linux :=
  ⟨(host_init_os_validation false
      [("hostname", .vStr "h"), ("role", .vStr "r"), ("username", .vStr "u"),
       ("password", .vStr "p"), ("os", .vStr "bogus")]).1 rfl,
   fun h hok => (host_init_os_validation false
      [("hostname", .vStr "h"), ("role", .vStr "r"), ("username", .vStr "u"),
       ("password", .vStr "p")]).2.1 h rfl hok⟩
